import Mathlib

/-!
Verification of the `vnengine` Python package (visual-novel script engine).

The Python sources under `src/python/vnengine` are shallowly embedded here:
JSON-like dynamic values become the inductive `Json`, Python coercions
(`str`, `int`, `float`, `bool`, iteration, subscripting) become explicit
total functions into `Except PyErr`, and each `from_dict` / `to_dict`
deserializer from `types.py` becomes a Lean function over `Json`.
-/

namespace VN

/-- A Python exception: class name and message. -/
structure PyErr where
  cls : String
  msg : String
deriving DecidableEq, Repr

/-- JSON-like values as produced by Python `json.loads`: `None`, booleans,
ints, floats (modelled as rationals; the claims never depend on float
rounding), strings, lists and string-keyed dicts (association lists, keys
unique in values that come from JSON text). Python distinguishes `int`
from `float`, so they are separate constructors. -/
inductive Json where
  | null
  | b (v : Bool)
  | i (v : Int)
  | f (v : Rat)
  | s (v : String)
  | arr (items : List Json)
  | obj (fields : List (String × Json))

/-- Python truth test `j is None`. -/
def jsonIsNull : Json → Bool
  | .null => true
  | _ => false

/-- Python `j == t` for a string literal `t` : true only for an equal string. -/
def jsonEqStr (j : Json) (t : String) : Bool :=
  match j with
  | .s v => v == t
  | _ => false

/-- Python `type(v).__name__`. -/
def pyTypeName : Json → String
  | .null => "NoneType"
  | .b _ => "bool"
  | .i _ => "int"
  | .f _ => "float"
  | .s _ => "str"
  | .arr _ => "list"
  | .obj _ => "dict"

/-- Python `str(v)`. The rendering of non-string scalars follows CPython
(`True`, `False`, `None`, decimal ints); renderings of containers and
floats are fixed arbitrarily, as no claim depends on them. -/
def pyStr : Json → String
  | .null => "None"
  | .b true => "True"
  | .b false => "False"
  | .i v => toString v
  | .f v => toString v
  | .s v => v
  | .arr _ => "<list>"
  | .obj _ => "<dict>"

/-- Python `d.get(key, dflt)`: association-list lookup with a default;
anything that is not a dict has no `get` attribute. -/
def pyGet (j : Json) (key : String) (dflt : Json) : Except PyErr Json :=
  match j with
  | .obj fields => .ok ((fields.lookup key).getD dflt)
  | _ => .error ⟨"AttributeError", "object has no attribute get"⟩

/-- Python `d[key]` on a mapping: `KeyError` when the key is missing,
`TypeError` when the receiver is not a dict. -/
def pyItem (j : Json) (key : String) : Except PyErr Json :=
  match j with
  | .obj fields =>
    match fields.lookup key with
    | some v => .ok v
    | none => .error ⟨"KeyError", key⟩
  | _ => .error ⟨"TypeError", "object is not subscriptable"⟩

/-- Python iteration `for item in j`: lists yield their elements, strings
yield their characters as one-character strings, dicts yield their keys;
other values raise `TypeError`. -/
def pyIter : Json → Except PyErr (List Json)
  | .arr items => .ok items
  | .s v => .ok (v.toList.map fun c => .s (String.mk [c]))
  | .obj fields => .ok (fields.map fun p => Json.s p.1)
  | _ => .error ⟨"TypeError", "object is not iterable"⟩

/-- Python `d.items()`: only dicts have it. -/
def pyItems : Json → Except PyErr (List (String × Json))
  | .obj fields => .ok fields
  | _ => .error ⟨"AttributeError", "object has no attribute items"⟩

/-- Value of a (possibly empty) list of decimal digit characters;
`none` on a non-digit. The empty list yields 0. -/
def digitsVal (cs : List Char) : Option Nat :=
  cs.foldlM (fun acc c => if c.isDigit then some (acc * 10 + (c.toNat - 48)) else none) 0

/-- Python `str.strip()`: remove leading and trailing whitespace. -/
def pyStrip (v : String) : String :=
  String.mk (((v.toList.dropWhile Char.isWhitespace).reverse.dropWhile Char.isWhitespace).reverse)

/-- Magnitude part of a Python `int()` string argument: non-empty run of
decimal digits. -/
def parseIntMag (cs : List Char) : Option Nat :=
  match cs with
  | [] => none
  | _ => digitsVal cs

/-- Python `int(v)` on a string: optional sign and decimal digits, with
surrounding whitespace allowed; anything else raises `ValueError`. -/
def parsePyIntStr (v : String) : Except PyErr Int :=
  let t := (pyStrip v).toList
  let mag : List Char → Except PyErr Int := fun cs =>
    match parseIntMag cs with
    | some n => .ok (n : Int)
    | none => .error ⟨"ValueError", "invalid literal for int"⟩
  match t with
  | '-' :: rest => (mag rest).map (fun n => -n)
  | '+' :: rest => mag rest
  | _ => mag t

/-- Magnitude part of a Python `float()` string argument: digits with an
optional decimal point (exponent forms omitted; no claim depends on float
string parsing). -/
def parseFloatMag (cs : List Char) : Option Rat :=
  let ip := cs.takeWhile Char.isDigit
  let rest := cs.dropWhile Char.isDigit
  match rest with
  | [] =>
    match ip with
    | [] => none
    | _ => (digitsVal ip).map (fun n => (n : Rat))
  | '.' :: frac =>
    if ip.isEmpty && frac.isEmpty then none
    else
      match digitsVal ip, digitsVal frac with
      | some n, some m => some ((n : Rat) + (m : Rat) / ((10 : Rat) ^ frac.length))
      | _, _ => none
  | _ => none

/-- Python `float(v)` on a string. -/
def parsePyFloatStr (v : String) : Except PyErr Rat :=
  let t := (pyStrip v).toList
  let mag : List Char → Except PyErr Rat := fun cs =>
    match parseFloatMag cs with
    | some q => .ok q
    | none => .error ⟨"ValueError", "could not convert string to float"⟩
  match t with
  | '-' :: rest => (mag rest).map (fun q => -q)
  | '+' :: rest => mag rest
  | _ => mag t

/-- Truncation of a rational toward zero, as Python `int(float)` does. -/
def ratTrunc (q : Rat) : Int :=
  if 0 ≤ q then ⌊q⌋ else ⌈q⌉

/-- Python `int(v)`: ints unchanged, bools become 0/1 (bool is a subclass
of int), floats truncate toward zero, strings parse as decimal integers or
raise `ValueError`; other values raise `TypeError`. -/
def pyInt : Json → Except PyErr Int
  | .i v => .ok v
  | .b true => .ok 1
  | .b false => .ok 0
  | .f v => .ok (ratTrunc v)
  | .s v => parsePyIntStr v
  | .null => .error ⟨"TypeError", "int argument must not be None"⟩
  | .arr _ => .error ⟨"TypeError", "int argument must not be a list"⟩
  | .obj _ => .error ⟨"TypeError", "int argument must not be a dict"⟩

/-- Python `float(v)`. -/
def pyFloat : Json → Except PyErr Rat
  | .f v => .ok v
  | .i v => .ok (v : Rat)
  | .b true => .ok 1
  | .b false => .ok 0
  | .s v => parsePyFloatStr v
  | .null => .error ⟨"TypeError", "float argument must not be None"⟩
  | .arr _ => .error ⟨"TypeError", "float argument must not be a list"⟩
  | .obj _ => .error ⟨"TypeError", "float argument must not be a dict"⟩

/-- Python `bool(v)` truthiness: never raises. -/
def pyBool : Json → Bool
  | .null => false
  | .b v => v
  | .i v => v != 0
  | .f v => v != 0
  | .s v => v != ""
  | .arr items => !items.isEmpty
  | .obj fields => !fields.isEmpty

/-- Sequential effectful map over a list, as a Python list comprehension
evaluates: the first raised exception aborts the whole comprehension. -/
def mapExcept {α β : Type} (g : α → Except PyErr β) : List α → Except PyErr (List β)
  | [] => .ok []
  | x :: xs => do
    let y ← g x
    let ys ← mapExcept g xs
    .ok (y :: ys)

/-- Whether an `Except` is a success. -/
def exceptOk {ε α : Type} : Except ε α → Bool
  | .ok _ => true
  | .error _ => false

/-- Optional-string field stored by `data.get(...)` without coercion
(`Scene`/`Patch` background and music). The Python dataclasses annotate
these fields `Optional[str]` and store whatever `get` returned; on every
string-or-absent input this is the identity, and non-string values are
retained by Python unconverted, modelled here through their string form. -/
def optStrOfJson : Json → Option String
  | .null => none
  | v => some (pyStr v)

/-- Json value of an optional string field (`None` serializes as null). -/
def jsonOfOptStr : Option String → Json
  | none => .null
  | some v => .s v

/-- Json value of an optional int field. -/
def jsonOfOptInt : Option Int → Json
  | none => .null
  | some v => .i v

/-- Json value of an optional float field. -/
def jsonOfOptRat : Option Rat → Json
  | none => .null
  | some v => .f v

/-- Json value of an optional bool field. -/
def jsonOfOptBool : Option Bool → Json
  | none => .null
  | some v => .b v

/-- Supported schema version (`types.py`, `SCRIPT_SCHEMA_VERSION`). -/
def SCRIPT_SCHEMA_VERSION : String := "1.0"

/-- Dialogue event (`types.py`, class `Dialogue`). -/
structure Dialogue where
  speaker : String
  text : String
deriving DecidableEq, Repr

def Dialogue.to_dict (d : Dialogue) : Json :=
  .obj [("type", .s "dialogue"), ("speaker", .s d.speaker), ("text", .s d.text)]

def Dialogue.from_dict (data : Json) : Except PyErr Dialogue := do
  let sp ← pyItem data "speaker"
  let tx ← pyItem data "text"
  .ok ⟨pyStr sp, pyStr tx⟩

/-- Choice option entry (`types.py`, class `ChoiceOption`). -/
structure ChoiceOption where
  text : String
  target : String
deriving DecidableEq, Repr

def ChoiceOption.to_dict (o : ChoiceOption) : Json :=
  .obj [("text", .s o.text), ("target", .s o.target)]

def ChoiceOption.from_dict (data : Json) : Except PyErr ChoiceOption := do
  let tx ← pyItem data "text"
  let tg ← pyItem data "target"
  .ok ⟨pyStr tx, pyStr tg⟩

/-- Choice event (`types.py`, class `Choice`). -/
structure Choice where
  prompt : String
  options : List ChoiceOption := []
deriving DecidableEq, Repr

def Choice.to_dict (c : Choice) : Json :=
  .obj [("type", .s "choice"), ("prompt", .s c.prompt),
        ("options", .arr (c.options.map ChoiceOption.to_dict))]

def Choice.from_dict (data : Json) : Except PyErr Choice := do
  let rawOptions ← pyGet data "options" (.arr [])
  let items ← pyIter rawOptions
  let options ← mapExcept ChoiceOption.from_dict items
  let prompt ← pyItem data "prompt"
  .ok ⟨pyStr prompt, options⟩

/-- Character placement (`types.py`, class `CharacterPlacement`). -/
structure CharacterPlacement where
  name : String
  expression : Option String := none
  position : Option String := none
  x : Option Int := none
  y : Option Int := none
  scale : Option Rat := none
deriving DecidableEq, Repr

def CharacterPlacement.to_dict (c : CharacterPlacement) : Json :=
  .obj [("name", .s c.name), ("expression", jsonOfOptStr c.expression),
        ("position", jsonOfOptStr c.position), ("x", jsonOfOptInt c.x),
        ("y", jsonOfOptInt c.y), ("scale", jsonOfOptRat c.scale)]

def CharacterPlacement.from_dict (data : Json) : Except PyErr CharacterPlacement := do
  let expression ← pyGet data "expression" .null
  let position ← pyGet data "position" .null
  let nm ← pyItem data "name"
  let xv ← pyGet data "x" .null
  let x ← match xv with
    | .null => pure (none : Option Int)
    | v => (pyInt v).map some
  let yv ← pyGet data "y" .null
  let y ← match yv with
    | .null => pure (none : Option Int)
    | v => (pyInt v).map some
  let sv ← pyGet data "scale" .null
  let scale ← match sv with
    | .null => pure (none : Option Rat)
    | v => (pyFloat v).map some
  .ok ⟨pyStr nm, optStrOfJson expression, optStrOfJson position, x, y, scale⟩

/-- Scene event (`types.py`, class `Scene`). -/
structure Scene where
  background : Option String := none
  music : Option String := none
  characters : List CharacterPlacement := []
deriving DecidableEq, Repr

def Scene.to_dict (sc : Scene) : Json :=
  .obj [("type", .s "scene"), ("background", jsonOfOptStr sc.background),
        ("music", jsonOfOptStr sc.music),
        ("characters", .arr (sc.characters.map CharacterPlacement.to_dict))]

def Scene.from_dict (data : Json) : Except PyErr Scene := do
  let rawChars ← pyGet data "characters" (.arr [])
  let items ← pyIter rawChars
  let characters ← mapExcept CharacterPlacement.from_dict items
  let bg ← pyGet data "background" .null
  let mu ← pyGet data "music" .null
  .ok ⟨optStrOfJson bg, optStrOfJson mu, characters⟩

/-- Character patch entry (`types.py`, class `CharacterPatch`). -/
structure CharacterPatch where
  name : String
  expression : Option String := none
  position : Option String := none
deriving DecidableEq, Repr

def CharacterPatch.to_dict (c : CharacterPatch) : Json :=
  .obj [("name", .s c.name), ("expression", jsonOfOptStr c.expression),
        ("position", jsonOfOptStr c.position)]

def CharacterPatch.from_dict (data : Json) : Except PyErr CharacterPatch := do
  let expression ← pyGet data "expression" .null
  let position ← pyGet data "position" .null
  let nm ← pyItem data "name"
  .ok ⟨pyStr nm, optStrOfJson expression, optStrOfJson position⟩

/-- Scene patch event (`types.py`, class `Patch`). -/
structure Patch where
  background : Option String := none
  music : Option String := none
  add : List CharacterPlacement := []
  update : List CharacterPatch := []
  remove : List String := []
deriving DecidableEq, Repr

def Patch.to_dict (p : Patch) : Json :=
  .obj [("type", .s "patch"), ("background", jsonOfOptStr p.background),
        ("music", jsonOfOptStr p.music),
        ("add", .arr (p.add.map CharacterPlacement.to_dict)),
        ("update", .arr (p.update.map CharacterPatch.to_dict)),
        ("remove", .arr (p.remove.map Json.s))]

def Patch.from_dict (data : Json) : Except PyErr Patch := do
  let rawAdd ← pyGet data "add" (.arr [])
  let addItems ← pyIter rawAdd
  let add ← mapExcept CharacterPlacement.from_dict addItems
  let rawUpdate ← pyGet data "update" (.arr [])
  let updateItems ← pyIter rawUpdate
  let update ← mapExcept CharacterPatch.from_dict updateItems
  let rawRemove ← pyGet data "remove" (.arr [])
  let removeItems ← pyIter rawRemove
  let bg ← pyGet data "background" .null
  let mu ← pyGet data "music" .null
  .ok ⟨optStrOfJson bg, optStrOfJson mu, add, update, removeItems.map pyStr⟩

/-- Audio action event (`types.py`, class `AudioAction`). -/
structure AudioAction where
  channel : String
  action : String
  asset : Option String := none
  volume : Option Rat := none
  fade_duration_ms : Option Int := none
  loop_playback : Option Bool := none
deriving DecidableEq, Repr

def AudioAction.to_dict (a : AudioAction) : Json :=
  .obj [("type", .s "audio_action"), ("channel", .s a.channel),
        ("action", .s a.action), ("asset", jsonOfOptStr a.asset),
        ("volume", jsonOfOptRat a.volume),
        ("fade_duration_ms", jsonOfOptInt a.fade_duration_ms),
        ("loop_playback", jsonOfOptBool a.loop_playback)]

def AudioAction.from_dict (data : Json) : Except PyErr AudioAction := do
  let ch ← pyItem data "channel"
  let ac ← pyItem data "action"
  let av ← pyGet data "asset" .null
  let vv ← pyGet data "volume" .null
  let volume ← match vv with
    | .null => pure (none : Option Rat)
    | v => (pyFloat v).map some
  let fv ← pyGet data "fade_duration_ms" .null
  let fade ← match fv with
    | .null => pure (none : Option Int)
    | v => (pyInt v).map some
  let lv ← pyGet data "loop_playback" .null
  let loopv : Option Bool := match lv with
    | .null => none
    | v => some (pyBool v)
  .ok ⟨pyStr ch, pyStr ac, optStrOfJson av, volume, fade, loopv⟩

/-- Scene transition event (`types.py`, class `Transition`). -/
structure Transition where
  kind : String
  duration_ms : Int
  color : Option String := none
deriving DecidableEq, Repr

def Transition.to_dict (t : Transition) : Json :=
  .obj [("type", .s "transition"), ("kind", .s t.kind),
        ("duration_ms", .i t.duration_ms), ("color", jsonOfOptStr t.color)]

def Transition.from_dict (data : Json) : Except PyErr Transition := do
  let kd ← pyItem data "kind"
  let dv ← pyItem data "duration_ms"
  let duration ← pyInt dv
  let cv ← pyGet data "color" .null
  .ok ⟨pyStr kd, duration, optStrOfJson cv⟩

/-- Absolute character position event (`types.py`, class `SetCharacterPosition`). -/
structure SetCharacterPosition where
  name : String
  x : Int
  y : Int
  scale : Option Rat := none
deriving DecidableEq, Repr

def SetCharacterPosition.to_dict (p : SetCharacterPosition) : Json :=
  .obj [("type", .s "set_character_position"), ("name", .s p.name),
        ("x", .i p.x), ("y", .i p.y), ("scale", jsonOfOptRat p.scale)]

def SetCharacterPosition.from_dict (data : Json) : Except PyErr SetCharacterPosition := do
  let nm ← pyItem data "name"
  let xv ← pyItem data "x"
  let x ← pyInt xv
  let yv ← pyItem data "y"
  let y ← pyInt yv
  let sv ← pyGet data "scale" .null
  let scale ← match sv with
    | .null => pure (none : Option Rat)
    | v => (pyFloat v).map some
  .ok ⟨pyStr nm, x, y, scale⟩

/-- External call event (`types.py`, class `ExtCall`). -/
structure ExtCall where
  command : String
  args : List String := []
deriving DecidableEq, Repr

def ExtCall.to_dict (e : ExtCall) : Json :=
  .obj [("type", .s "ext_call"), ("command", .s e.command),
        ("args", .arr (e.args.map Json.s))]

def ExtCall.from_dict (data : Json) : Except PyErr ExtCall := do
  let cmd ← pyItem data "command"
  let rawArgs ← pyGet data "args" (.arr [])
  let items ← pyIter rawArgs
  .ok ⟨pyStr cmd, items.map pyStr⟩

/-- Jump event (`types.py`, class `Jump`). -/
structure Jump where
  target : String
deriving DecidableEq, Repr

def Jump.to_dict (j : Jump) : Json :=
  .obj [("type", .s "jump"), ("target", .s j.target)]

def Jump.from_dict (data : Json) : Except PyErr Jump := do
  let tg ← pyItem data "target"
  .ok ⟨pyStr tg⟩

/-- Set-flag event (`types.py`, class `SetFlag`). -/
structure SetFlag where
  key : String
  value : Bool
deriving DecidableEq, Repr

def SetFlag.to_dict (sf : SetFlag) : Json :=
  .obj [("type", .s "set_flag"), ("key", .s sf.key), ("value", .b sf.value)]

/-- `SetFlag.from_dict`: `isinstance(value, bool)` holds exactly for
Python bools; ints, floats and strings are rejected with `ValueError`. -/
def SetFlag.from_dict (data : Json) : Except PyErr SetFlag := do
  let v ← pyItem data "value"
  match v with
  | .b bv => do
    let k ← pyItem data "key"
    .ok ⟨pyStr k, bv⟩
  | _ => .error ⟨"ValueError", "SetFlag value must be bool, got " ++ pyTypeName v⟩

/-- Set-var event (`types.py`, class `SetVar`). -/
structure SetVar where
  key : String
  value : Int
deriving DecidableEq, Repr

def SetVar.to_dict (sv : SetVar) : Json :=
  .obj [("type", .s "set_var"), ("key", .s sv.key), ("value", .i sv.value)]

/-- `SetVar.from_dict`: `isinstance(value, int)` holds for Python ints and
also for bools, since Python `bool` is a subclass of `int`; a bool is
stored through its integer value (Python retains the bool object itself,
which is observationally equal to that integer). Floats and strings are
rejected with `ValueError`. -/
def SetVar.from_dict (data : Json) : Except PyErr SetVar := do
  let v ← pyItem data "value"
  match v with
  | .i n => do
    let k ← pyItem data "key"
    .ok ⟨pyStr k, n⟩
  | .b bv => do
    let k ← pyItem data "key"
    .ok ⟨pyStr k, if bv then 1 else 0⟩
  | _ => .error ⟨"ValueError", "SetVar value must be int, got " ++ pyTypeName v⟩

/-- Flag condition (`types.py`, class `CondFlag`). -/
structure CondFlag where
  key : String
  is_set : Bool
deriving DecidableEq, Repr

def CondFlag.to_dict (c : CondFlag) : Json :=
  .obj [("kind", .s "flag"), ("key", .s c.key), ("is_set", .b c.is_set)]

def CondFlag.from_dict (data : Json) : Except PyErr CondFlag := do
  let v ← pyItem data "is_set"
  match v with
  | .b bv => do
    let k ← pyItem data "key"
    .ok ⟨pyStr k, bv⟩
  | _ => .error ⟨"ValueError", "CondFlag is_set must be bool, got " ++ pyTypeName v⟩

/-- Variable comparison condition (`types.py`, class `CondVarCmp`). -/
structure CondVarCmp where
  key : String
  op : String
  value : Int
deriving DecidableEq, Repr

def CondVarCmp.to_dict (c : CondVarCmp) : Json :=
  .obj [("kind", .s "var_cmp"), ("key", .s c.key), ("op", .s c.op),
        ("value", .i c.value)]

/-- `CondVarCmp.from_dict`: like `SetVar`, the `isinstance(value, int)`
check accepts Python bools as well. -/
def CondVarCmp.from_dict (data : Json) : Except PyErr CondVarCmp := do
  let v ← pyItem data "value"
  match v with
  | .i n => do
    let k ← pyItem data "key"
    let op ← pyItem data "op"
    .ok ⟨pyStr k, pyStr op, n⟩
  | .b bv => do
    let k ← pyItem data "key"
    let op ← pyItem data "op"
    .ok ⟨pyStr k, pyStr op, if bv then 1 else 0⟩
  | _ => .error ⟨"ValueError", "CondVarCmp value must be int, got " ++ pyTypeName v⟩

/-- Condition union (`types.py`, `Cond = Union[CondFlag, CondVarCmp]`). -/
inductive Cond where
  | flag (c : CondFlag)
  | var_cmp (c : CondVarCmp)
deriving DecidableEq, Repr

def Cond.to_dict : Cond → Json
  | .flag c => c.to_dict
  | .var_cmp c => c.to_dict

/-- `cond_from_dict` (`types.py`): dispatch on the `kind` discriminator;
unknown kinds raise `ValueError`. -/
def cond_from_dict (data : Json) : Except PyErr Cond := do
  let kind ← pyGet data "kind" .null
  if jsonEqStr kind "flag" then (CondFlag.from_dict data).map Cond.flag
  else if jsonEqStr kind "var_cmp" then (CondVarCmp.from_dict data).map Cond.var_cmp
  else .error ⟨"ValueError", "Unknown condition kind: " ++ pyStr kind⟩

/-- Conditional jump event (`types.py`, class `JumpIf`). -/
structure JumpIf where
  cond : Cond
  target : String
deriving DecidableEq, Repr

def JumpIf.to_dict (j : JumpIf) : Json :=
  .obj [("type", .s "jump_if"), ("cond", j.cond.to_dict), ("target", .s j.target)]

def JumpIf.from_dict (data : Json) : Except PyErr JumpIf := do
  let cv ← pyGet data "cond" (.obj [])
  let cond ← cond_from_dict cv
  let tg ← pyItem data "target"
  .ok ⟨cond, pyStr tg⟩

/-- Event union (`types.py`, `Event = Union[...]`, twelve variants). -/
inductive Event where
  | dialogue (e : Dialogue)
  | choice (e : Choice)
  | scene (e : Scene)
  | jump (e : Jump)
  | set_flag (e : SetFlag)
  | set_var (e : SetVar)
  | jump_if (e : JumpIf)
  | patch (e : Patch)
  | audio_action (e : AudioAction)
  | transition (e : Transition)
  | set_character_position (e : SetCharacterPosition)
  | ext_call (e : ExtCall)
deriving DecidableEq, Repr

def Event.to_dict : Event → Json
  | .dialogue e => e.to_dict
  | .choice e => e.to_dict
  | .scene e => e.to_dict
  | .jump e => e.to_dict
  | .set_flag e => e.to_dict
  | .set_var e => e.to_dict
  | .jump_if e => e.to_dict
  | .patch e => e.to_dict
  | .audio_action e => e.to_dict
  | .transition e => e.to_dict
  | .set_character_position e => e.to_dict
  | .ext_call e => e.to_dict

/-- `event_from_dict` (`types.py`): dispatch on the `type` discriminator
in source order; unknown types raise `ValueError`. -/
def event_from_dict (data : Json) : Except PyErr Event := do
  let event_type ← pyGet data "type" .null
  if jsonEqStr event_type "dialogue" then (Dialogue.from_dict data).map Event.dialogue
  else if jsonEqStr event_type "choice" then (Choice.from_dict data).map Event.choice
  else if jsonEqStr event_type "scene" then (Scene.from_dict data).map Event.scene
  else if jsonEqStr event_type "jump" then (Jump.from_dict data).map Event.jump
  else if jsonEqStr event_type "set_flag" then (SetFlag.from_dict data).map Event.set_flag
  else if jsonEqStr event_type "set_var" then (SetVar.from_dict data).map Event.set_var
  else if jsonEqStr event_type "jump_if" then (JumpIf.from_dict data).map Event.jump_if
  else if jsonEqStr event_type "patch" then (Patch.from_dict data).map Event.patch
  else if jsonEqStr event_type "audio_action" then (AudioAction.from_dict data).map Event.audio_action
  else if jsonEqStr event_type "transition" then (Transition.from_dict data).map Event.transition
  else if jsonEqStr event_type "set_character_position" then (SetCharacterPosition.from_dict data).map Event.set_character_position
  else if jsonEqStr event_type "ext_call" then (ExtCall.from_dict data).map Event.ext_call
  else .error ⟨"ValueError", "Unknown event type: " ++ pyStr event_type⟩

/-- Script container (`types.py`, class `Script`). Labels are a Python
dict, modelled as an association list in insertion order; keys are unique
in any dict Python can hold. -/
structure Script where
  events : List Event := []
  labels : List (String × Int) := []
  script_schema_version : String := SCRIPT_SCHEMA_VERSION
deriving DecidableEq, Repr

/-- `sorted(self.labels)`: the label keys in sorted order. -/
def sortedKeys (labels : List (String × Int)) : List String :=
  (labels.map Prod.fst).mergeSort (fun a b => a ≤ b)

/-- `Script.to_dict`: labels are re-emitted in sorted key order
(`{key: self.labels[key] for key in sorted(self.labels)}`). -/
def Script.to_dict (s : Script) : Json :=
  .obj [("script_schema_version", .s s.script_schema_version),
        ("events", .arr (s.events.map Event.to_dict)),
        ("labels", .obj ((sortedKeys s.labels).map
          fun k => (k, Json.i ((s.labels.lookup k).getD 0))))]

/-- `Script.from_dict` (`types.py` lines 457-469): check the schema
version first (missing or string-mismatching versions raise), then parse
events, then labels (`{str(key): int(value) ...}`; keys in this model are
already strings). No validation of label ranges or branch targets occurs. -/
def Script.from_dict (data : Json) : Except PyErr Script := do
  let found_version ← pyGet data "script_schema_version" .null
  if jsonIsNull found_version then
    .error ⟨"ValueError", "schema incompatible: missing script_schema_version"⟩
  else if pyStr found_version ≠ SCRIPT_SCHEMA_VERSION then
    .error ⟨"ValueError", "schema incompatible: found " ++ pyStr found_version
      ++ ", expected " ++ SCRIPT_SCHEMA_VERSION⟩
  else do
    let rawEvents ← pyGet data "events" (.arr [])
    let eventItems ← pyIter rawEvents
    let events ← mapExcept event_from_dict eventItems
    let rawLabels ← pyGet data "labels" (.obj [])
    let labelItems ← pyItems rawLabels
    let labels ← mapExcept (fun p => (pyInt p.2).map (fun n => (p.1, n))) labelItems
    .ok ⟨events, labels, pyStr found_version⟩

/-- `Script.to_json`: `json.dumps` over `to_dict`. Serialization to text
is modelled as the identity on `Json` values, since `json.dumps` and
`json.loads` form a bijection between the wire text and these values. -/
def Script.to_json (s : Script) : Json := s.to_dict

/-- `Script.from_json`: `json.loads` then `from_dict`. -/
def Script.from_json (raw : Json) : Except PyErr Script := Script.from_dict raw

/-- Python `v.startswith(p)`. -/
def strStartsWith (v p : String) : Bool := p.toList.isPrefixOf v.toList

/-- Python `v[n:]`. -/
def strDrop (v : String) (n : Nat) : String := String.mk (v.toList.drop n)

/-- `_extract_loc_key` (`localization.py` lines 11-16): strip the value,
require the `loc:` sentinel, strip the remainder and require it
non-empty. -/
def extract_loc_key (value : String) : Option String :=
  let text := pyStrip value
  if strStartsWith text "loc:" then
    let key := pyStrip (strDrop text 4)
    if key = "" then none else some key
  else none

/-- Keys one event contributes in `collect_script_localization_keys`:
dialogue is scanned on its speaker and text fields, choice on its prompt
and every option text; all other variants contribute nothing. -/
def eventLocKeys : Event → List String
  | .dialogue d => [d.speaker, d.text].filterMap extract_loc_key
  | .choice c => (c.prompt :: c.options.map ChoiceOption.text).filterMap extract_loc_key
  | _ => []

/-- `collect_script_localization_keys` (`localization.py` lines 50-69).
The Python function accumulates into a set; this model returns the list
of extracted keys, and the claims about it are stated as membership. -/
def collect_script_localization_keys (script : Script) : List String :=
  script.events.flatMap eventLocKeys

/-- Localization catalog (`localization.py`, class `LocalizationCatalog`).
`locales` maps a locale name to its translation table. -/
structure LocalizationCatalog where
  default_locale : String := "en"
  locales : List (String × List (String × String)) := []

/-- `LocalizationCatalog.resolve`: the requested locale's table wins when
it contains the key; otherwise fall back to the default locale's table. -/
def LocalizationCatalog.resolve (c : LocalizationCatalog) (locale key : String) : Option String :=
  match c.locales.lookup locale with
  | some table =>
    match table.lookup key with
    | some v => some v
    | none => ((c.locales.lookup c.default_locale).getD []).lookup key
  | none => ((c.locales.lookup c.default_locale).getD []).lookup key

/-- `LocalizationCatalog.resolve_or_key`: Python `self.resolve(...) or key`
falls back to the key both when `resolve` returns `None` and when it
returns the falsy empty string. -/
def LocalizationCatalog.resolve_or_key (c : LocalizationCatalog) (locale key : String) : String :=
  match c.resolve locale key with
  | none => key
  | some t => if t = "" then key else t

/-- Python `needle in hay` on strings. -/
def strContains (hay needle : String) : Bool := decide (needle.toList <:+: hay.toList)

/-- The engine interface as `EngineApp.run` (`app.py`) uses it: the
wrapped native engine is abstract, an arbitrary state type with the three
operations the loop calls. `step` and `choose` mutate the engine and may
raise; their event return values are discarded by `run`. -/
structure PyEngine (σ : Type) where
  current_event : σ → Except PyErr Json
  stepFn : σ → Except PyErr σ
  chooseFn : σ → Int → Except PyErr σ

/-- The `except ValueError` clause of `EngineApp.run` swallows exactly the
ValueErrors whose text contains `script exhausted`. -/
def isScriptExhausted (e : PyErr) : Bool :=
  e.cls == "ValueError" && strContains e.msg "script exhausted"

/-- The index passed to `choose`: the chooser callback result when one is
supplied, 0 otherwise. -/
def chooseIndex (chooser : Option (Json → Int)) (event : Json) : Int :=
  match chooser with
  | some fn => fn event
  | none => 0

/-- `EngineApp.run` (`app.py` lines 20-47), with explicit fuel in place of
the unbounded `while True` loop (`none` = fuel exhausted, never returned
by the Python code, which just keeps looping). On an uncaught exception
the locally collected list is discarded and the exception propagates, so
the result is `Except PyErr (List Json)`. -/
def EngineApp.runFuel {σ : Type} (eng : PyEngine σ) (chooser : Option (Json → Int)) :
    Nat → σ → Option (Except PyErr (List Json))
  | 0, _ => none
  | fuel + 1, st =>
    match eng.current_event st with
    | .error exc =>
      if isScriptExhausted exc then some (.ok []) else some (.error exc)
    | .ok event =>
      let next : Except PyErr σ := do
        let t ← pyGet event "type" .null
        if jsonEqStr t "choice" then eng.chooseFn st (chooseIndex chooser event)
        else eng.stepFn st
      match next with
      | .error exc => some (.error exc)
      | .ok st2 =>
        match EngineApp.runFuel eng chooser fuel st2 with
        | none => none
        | some (.ok evs) => some (.ok (event :: evs))
        | some (.error exc) => some (.error exc)

/-- The behaviour claimed for `EngineApp.run`, written from the claim
itself: collect in order every event `current_event` returned; stop
normally exactly on a ValueError containing `script exhausted`; re-raise
any other exception; call `choose` once (with the chooser index) for
choice events and `step` once for every other event. -/
inductive RunSpec {σ : Type} (eng : PyEngine σ) (chooser : Option (Json → Int)) :
    σ → Except PyErr (List Json) → Prop where
  | exhausted (st : σ) (exc : PyErr) :
      eng.current_event st = .error exc →
      exc.cls = "ValueError" → strContains exc.msg "script exhausted" = true →
      RunSpec eng chooser st (.ok [])
  | reraise (st : σ) (exc : PyErr) :
      eng.current_event st = .error exc →
      ¬(exc.cls = "ValueError" ∧ strContains exc.msg "script exhausted" = true) →
      RunSpec eng chooser st (.error exc)
  | typeRaise (st : σ) (event : Json) (exc : PyErr) :
      eng.current_event st = .ok event →
      pyGet event "type" .null = .error exc →
      RunSpec eng chooser st (.error exc)
  | choiceOk (st : σ) (event tv : Json) (st2 : σ) (rest : Except PyErr (List Json)) :
      eng.current_event st = .ok event →
      pyGet event "type" .null = .ok tv → jsonEqStr tv "choice" = true →
      eng.chooseFn st (chooseIndex chooser event) = .ok st2 →
      RunSpec eng chooser st2 rest →
      RunSpec eng chooser st (rest.map fun evs => event :: evs)
  | choiceRaise (st : σ) (event tv : Json) (exc : PyErr) :
      eng.current_event st = .ok event →
      pyGet event "type" .null = .ok tv → jsonEqStr tv "choice" = true →
      eng.chooseFn st (chooseIndex chooser event) = .error exc →
      RunSpec eng chooser st (.error exc)
  | stepOk (st : σ) (event tv : Json) (st2 : σ) (rest : Except PyErr (List Json)) :
      eng.current_event st = .ok event →
      pyGet event "type" .null = .ok tv → jsonEqStr tv "choice" = false →
      eng.stepFn st = .ok st2 →
      RunSpec eng chooser st2 rest →
      RunSpec eng chooser st (rest.map fun evs => event :: evs)
  | stepRaise (st : σ) (event tv : Json) (exc : PyErr) :
      eng.current_event st = .ok event →
      pyGet event "type" .null = .ok tv → jsonEqStr tv "choice" = false →
      eng.stepFn st = .error exc →
      RunSpec eng chooser st (.error exc)

/-!
Modelled from the spec: the runtime interpreter itself lives in the
native `visual_novel_engine` module, which is not among the repository
sources; only its Python wrapper (`engine.py`) and tests are. The state
machine below is written from spec sections 4.2 and 4.3: states
`Running`/`AwaitingChoice`/`Suspended`/`Exhausted`, the per-variant event
effects, branch-time failure on unresolved targets, choice bounds
checking, suspension without a registered handler, and drained audio
commands returned as data with each call.
-/

/-- Modelled from the spec: interpreter machine states (spec 4.2). -/
inductive Mode where
  | running (i : Nat)
  | awaitingChoice (i : Nat)
  | suspended (i : Nat)
  | exhausted
deriving DecidableEq, Repr

/-- Whether a mode is `AwaitingChoice`. -/
def isAwaiting : Mode → Bool
  | .awaitingChoice _ => true
  | _ => false

/-- Whether a mode is `Suspended`. -/
def isSuspendedMode : Mode → Bool
  | .suspended _ => true
  | _ => false

/-- Modelled from the spec: the visual state aggregate (spec 3 and 6). -/
structure VisualState where
  background : Option String := none
  music : Option String := none
  characters : List CharacterPlacement := []
deriving DecidableEq, Repr

/-- Modelled from the spec: one audio/visual command drained from a call,
mirroring the AudioAction or Transition event that produced it (spec 6). -/
structure AudioCmd where
  ctype : String
  channel : Option String := none
  asset : Option String := none
  volume : Option Rat := none
  fade : Option Int := none
  looping : Option Bool := none
  duration : Option Int := none
  color : Option String := none
deriving DecidableEq, Repr

/-- Modelled from the spec: execution state owned by one interpreter
(spec 3, ExecutionState). -/
structure EngState where
  mode : Mode
  flags : List (String × Bool) := []
  vars : List (String × Int) := []
  visual : VisualState := {}
  audioQueue : List AudioCmd := []
  choiceHistory : List (Nat × Int) := []
  readSet : List Nat := []
deriving DecidableEq, Repr

/-- Modelled from the spec: error taxonomy of per-call failures (spec 7);
`unknownLabel` is the branch-time failure for an unresolved target. -/
inductive EngErr where
  | stateError
  | scriptExhausted
  | engineSuspended
  | indexOutOfRange
  | unknownLabel (target : String)
deriving DecidableEq, Repr

/-- The calls a host can make on a constructed interpreter. -/
inductive EngCall where
  | step
  | choose (option_index : Int)
  | resume
deriving DecidableEq, Repr

/-- A call result: the event just processed plus the audio commands
drained by this call (spec 6). -/
def EngOut : Type := Except EngErr (Event × List AudioCmd)

/-- Update or append a key in an association map. -/
def setAssoc {α : Type} (k : String) (v : α) : List (String × α) → List (String × α)
  | [] => [(k, v)]
  | (k2, v2) :: rest => if k2 == k then (k2, v) :: rest else (k2, v2) :: setAssoc k v rest

/-- Modelled from the spec: cursor advance to `index+1`, or `Exhausted`
when that exceeds the script length (spec 4.2). -/
def advanceMode (script : Script) (i : Nat) : Mode :=
  if i + 1 < script.events.length then .running (i + 1) else .exhausted

/-- Modelled from the spec: a redirect target index becomes the cursor, or
`Exhausted` if it is past the end (spec 4.2, `choose`). -/
def cursorFromIndex (script : Script) (n : Nat) : Mode :=
  if n < script.events.length then .running n else .exhausted

/-- Resolution of a label name to its event index. -/
def resolveLabel (script : Script) (target : String) : Option Nat :=
  (script.labels.lookup target).map Int.toNat

/-- Modelled from the spec: conditional evaluation with absent flags
defaulting to false and absent vars to 0 (spec 4.2). The spec constrains
`op` to the six comparison names; other strings are treated as a failed
comparison. -/
def evalCond (st : EngState) : Cond → Bool
  | .flag c => ((st.flags.lookup c.key).getD false) == c.is_set
  | .var_cmp c =>
    let v := (st.vars.lookup c.key).getD 0
    match c.op with
    | "eq" => v == c.value
    | "ne" => v != c.value
    | "lt" => decide (v < c.value)
    | "le" => decide (v ≤ c.value)
    | "gt" => decide (v > c.value)
    | "ge" => decide (v ≥ c.value)
    | _ => false

/-- Modelled from the spec: Patch `add` inserts or overwrites by name
(spec 4.2). -/
def patchAdd (chars : List CharacterPlacement) (c : CharacterPlacement) : List CharacterPlacement :=
  if chars.any fun p => p.name == c.name then
    chars.map fun p => if p.name == c.name then c else p
  else chars ++ [c]

/-- Modelled from the spec: Patch `update` overwrites only the fields
explicitly present on matching names (spec 4.2). -/
def patchUpdate (chars : List CharacterPlacement) (u : CharacterPatch) : List CharacterPlacement :=
  chars.map fun p =>
    if p.name == u.name then
      { p with
        expression := (match u.expression with | some e => some e | none => p.expression),
        position := (match u.position with | some v => some v | none => p.position) }
    else p

/-- Modelled from the spec: Patch application order add, update, remove;
its own background/music fields overwrite when present, and an absent
field is taken as no change (the alternative the spec leaves open in
section 9). -/
def applyPatch (vs : VisualState) (p : Patch) : VisualState :=
  let cs1 := p.add.foldl patchAdd vs.characters
  let cs2 := p.update.foldl patchUpdate cs1
  let cs3 := cs2.filter fun c => !(p.remove.contains c.name)
  { background := (match p.background with | some b => some b | none => vs.background),
    music := (match p.music with | some m => some m | none => vs.music),
    characters := cs3 }

/-- Modelled from the spec: Scene replaces visual state wholesale
(spec 4.2). -/
def applyScene (sc : Scene) : VisualState :=
  { background := sc.background, music := sc.music, characters := sc.characters }

/-- Modelled from the spec: direct placement mutation of the named
character, inserting it when absent (spec 3, SetCharacterPosition). -/
def applySetPos (vs : VisualState) (p : SetCharacterPosition) : VisualState :=
  if vs.characters.any fun c => c.name == p.name then
    { vs with characters := vs.characters.map fun c =>
        if c.name == p.name then
          { c with
            x := some p.x,
            y := some p.y,
            scale := (match p.scale with | some q => some q | none => c.scale) }
        else c }
  else
    { vs with characters := vs.characters ++
      [{ name := p.name, x := some p.x, y := some p.y, scale := p.scale }] }

/-- The audio command an AudioAction event emits. -/
def cmdOfAudio (a : AudioAction) : AudioCmd :=
  { ctype := a.action, channel := some a.channel, asset := a.asset,
    volume := a.volume, fade := a.fade_duration_ms, looping := a.loop_playback }

/-- The command a Transition event emits. -/
def cmdOfTransition (t : Transition) : AudioCmd :=
  { ctype := t.kind, duration := some t.duration_ms, color := t.color }

/-- Modelled from the spec: initial state, cursor at label `start` or
index 0 (spec 3, ExecutionState lifecycle). -/
def initState (script : Script) : EngState :=
  { mode := .running (((script.labels.lookup "start").map Int.toNat).getD 0) }

/-- Modelled from the spec: the interpreter step relation. One call moves
the machine from a state to a state and produces a result; on a failed
call the state is unchanged (spec 4.2, atomicity). Audio commands
accumulated in the queue are drained into the successful call result. -/
inductive EngStep (script : Script) : EngState → EngCall → EngState → EngOut → Prop where
  | step_awaiting (s : EngState) (i : Nat) :
      s.mode = .awaitingChoice i →
      EngStep script s .step s (.error .stateError)
  | step_suspended (s : EngState) (i : Nat) :
      s.mode = .suspended i →
      EngStep script s .step s (.error .engineSuspended)
  | step_exhausted (s : EngState) :
      s.mode = .exhausted →
      EngStep script s .step s (.error .scriptExhausted)
  | step_dialogue (s : EngState) (i : Nat) (d : Dialogue) :
      s.mode = .running i → script.events[i]? = some (.dialogue d) →
      EngStep script s .step
        { s with mode := advanceMode script i, readSet := s.readSet.insert i, audioQueue := [] }
        (.ok (.dialogue d, s.audioQueue))
  | step_choice (s : EngState) (i : Nat) (c : Choice) :
      s.mode = .running i → script.events[i]? = some (.choice c) →
      EngStep script s .step
        { s with mode := .awaitingChoice i, audioQueue := [] }
        (.ok (.choice c, s.audioQueue))
  | step_scene (s : EngState) (i : Nat) (sc : Scene) :
      s.mode = .running i → script.events[i]? = some (.scene sc) →
      EngStep script s .step
        { s with mode := advanceMode script i, visual := applyScene sc, audioQueue := [] }
        (.ok (.scene sc, s.audioQueue))
  | step_patch (s : EngState) (i : Nat) (p : Patch) :
      s.mode = .running i → script.events[i]? = some (.patch p) →
      EngStep script s .step
        { s with mode := advanceMode script i, visual := applyPatch s.visual p, audioQueue := [] }
        (.ok (.patch p, s.audioQueue))
  | step_jump_resolved (s : EngState) (i n : Nat) (j : Jump) :
      s.mode = .running i → script.events[i]? = some (.jump j) →
      resolveLabel script j.target = some n →
      EngStep script s .step
        { s with mode := cursorFromIndex script n, audioQueue := [] }
        (.ok (.jump j, s.audioQueue))
  | step_jump_dangling (s : EngState) (i : Nat) (j : Jump) :
      s.mode = .running i → script.events[i]? = some (.jump j) →
      resolveLabel script j.target = none →
      EngStep script s .step s (.error (.unknownLabel j.target))
  | step_jump_if_taken (s : EngState) (i n : Nat) (j : JumpIf) :
      s.mode = .running i → script.events[i]? = some (.jump_if j) →
      evalCond s j.cond = true → resolveLabel script j.target = some n →
      EngStep script s .step
        { s with mode := cursorFromIndex script n, audioQueue := [] }
        (.ok (.jump_if j, s.audioQueue))
  | step_jump_if_dangling (s : EngState) (i : Nat) (j : JumpIf) :
      s.mode = .running i → script.events[i]? = some (.jump_if j) →
      evalCond s j.cond = true → resolveLabel script j.target = none →
      EngStep script s .step s (.error (.unknownLabel j.target))
  | step_jump_if_skipped (s : EngState) (i : Nat) (j : JumpIf) :
      s.mode = .running i → script.events[i]? = some (.jump_if j) →
      evalCond s j.cond = false →
      EngStep script s .step
        { s with mode := advanceMode script i, audioQueue := [] }
        (.ok (.jump_if j, s.audioQueue))
  | step_set_flag (s : EngState) (i : Nat) (sf : SetFlag) :
      s.mode = .running i → script.events[i]? = some (.set_flag sf) →
      EngStep script s .step
        { s with
          mode := advanceMode script i,
          flags := setAssoc sf.key sf.value s.flags,
          audioQueue := [] }
        (.ok (.set_flag sf, s.audioQueue))
  | step_set_var (s : EngState) (i : Nat) (sv : SetVar) :
      s.mode = .running i → script.events[i]? = some (.set_var sv) →
      EngStep script s .step
        { s with
          mode := advanceMode script i,
          vars := setAssoc sv.key sv.value s.vars,
          audioQueue := [] }
        (.ok (.set_var sv, s.audioQueue))
  | step_audio (s : EngState) (i : Nat) (a : AudioAction) :
      s.mode = .running i → script.events[i]? = some (.audio_action a) →
      EngStep script s .step
        { s with mode := advanceMode script i, audioQueue := [] }
        (.ok (.audio_action a, s.audioQueue ++ [cmdOfAudio a]))
  | step_transition (s : EngState) (i : Nat) (t : Transition) :
      s.mode = .running i → script.events[i]? = some (.transition t) →
      EngStep script s .step
        { s with mode := advanceMode script i, audioQueue := [] }
        (.ok (.transition t, s.audioQueue ++ [cmdOfTransition t]))
  | step_set_pos (s : EngState) (i : Nat) (p : SetCharacterPosition) :
      s.mode = .running i → script.events[i]? = some (.set_character_position p) →
      EngStep script s .step
        { s with
          mode := advanceMode script i,
          visual := applySetPos s.visual p,
          audioQueue := [] }
        (.ok (.set_character_position p, s.audioQueue))
  | step_ext_call (s : EngState) (i : Nat) (e : ExtCall) :
      s.mode = .running i → script.events[i]? = some (.ext_call e) →
      EngStep script s .step
        { s with mode := .suspended i, audioQueue := [] }
        (.ok (.ext_call e, s.audioQueue))
  | choose_not_awaiting (s : EngState) (n : Int) :
      isAwaiting s.mode = false →
      EngStep script s (.choose n) s (.error .stateError)
  | choose_out_of_range (s : EngState) (i : Nat) (c : Choice) (n : Int) :
      s.mode = .awaitingChoice i → script.events[i]? = some (.choice c) →
      (n < 0 ∨ (c.options.length : Int) ≤ n) →
      EngStep script s (.choose n) s (.error .indexOutOfRange)
  | choose_dangling (s : EngState) (i : Nat) (c : Choice) (n : Int) (opt : ChoiceOption) :
      s.mode = .awaitingChoice i → script.events[i]? = some (.choice c) →
      0 ≤ n → n < (c.options.length : Int) → c.options[n.toNat]? = some opt →
      resolveLabel script opt.target = none →
      EngStep script s (.choose n) s (.error (.unknownLabel opt.target))
  | choose_ok (s : EngState) (i : Nat) (c : Choice) (n : Int) (opt : ChoiceOption) (m : Nat) :
      s.mode = .awaitingChoice i → script.events[i]? = some (.choice c) →
      0 ≤ n → n < (c.options.length : Int) → c.options[n.toNat]? = some opt →
      resolveLabel script opt.target = some m →
      EngStep script s (.choose n)
        { s with
          mode := cursorFromIndex script m,
          choiceHistory := s.choiceHistory ++ [(i, n)],
          audioQueue := [] }
        (.ok (.choice c, s.audioQueue))
  | resume_ok (s : EngState) (i : Nat) (e : Event) :
      s.mode = .suspended i → script.events[i]? = some e →
      EngStep script s .resume
        { s with mode := advanceMode script i, audioQueue := [] }
        (.ok (e, s.audioQueue))
  | resume_not_suspended (s : EngState) :
      isSuspendedMode s.mode = false →
      EngStep script s .resume s (.error .stateError)

/-- A run of the interpreter: the trace records, for every call, its
result (event plus drained audio, or the error) together with the
visual-state snapshot after the call. -/
inductive EngRun (script : Script) : EngState → List EngCall → List (EngOut × VisualState) → Prop where
  | nil (s : EngState) : EngRun script s [] []
  | cons (s s2 : EngState) (c : EngCall) (o : EngOut) (calls : List EngCall)
      (tr : List (EngOut × VisualState)) :
      EngStep script s c s2 o → EngRun script s2 calls tr →
      EngRun script s (c :: calls) ((o, s2.visual) :: tr)

/-- Branch targets an event carries: Jump and JumpIf their target, Choice
its options' targets; no other variant has one. -/
def eventTargets : Event → List String
  | .jump j => [j.target]
  | .jump_if j => [j.target]
  | .choice c => c.options.map ChoiceOption.target
  | _ => []

/-- The schema version field of a raw input as `Script.from_dict` sees
it: `none` when the input is not a dict, the field is absent, or its
value is null (`data.get` returns `None` in all three shapes the code
treats as missing). -/
def versionField : Json → Option Json
  | .obj fields =>
    match fields.lookup "script_schema_version" with
    | some v => if jsonIsNull v then none else some v
    | none => none
  | _ => none

/-- The `type` discriminator of a raw event object, when it is a string. -/
def evTypeOf : Json → Option String
  | .obj fields =>
    match fields.lookup "type" with
    | some (.s t) => some t
    | _ => none
  | _ => none

/-- The `kind` discriminator of a raw condition object, when a string. -/
def condKindOf : Json → Option String
  | .obj fields =>
    match fields.lookup "kind" with
    | some (.s t) => some t
    | _ => none
  | _ => none

/-- The twelve event type discriminators `event_from_dict` dispatches on. -/
def knownEventTypes : List String :=
  ["dialogue", "choice", "scene", "jump", "set_flag", "set_var", "jump_if",
   "patch", "audio_action", "transition", "set_character_position", "ext_call"]

/-- A raw event dict carrying just a key and a value field. -/
def kvDict (k : String) (v : Json) : Json :=
  .obj [("key", .s k), ("value", v)]

/-- The fields of an event that the localization collector scans, as the
claim enumerates them: a Dialogue speaker or text, a Choice prompt, or a
Choice option text. -/
def IsLocSourceField (e : Event) (v : String) : Prop :=
  (∃ d, e = .dialogue d ∧ (v = d.speaker ∨ v = d.text)) ∨
  (∃ c, e = .choice c ∧ (v = c.prompt ∨ ∃ o ∈ c.options, v = o.text))

/-- Concrete catalog exercising the fallback rules of `resolve_or_key`. -/
def demoCatalog : LocalizationCatalog :=
  { default_locale := "en",
    locales := [("en", [("k", "hello"), ("empty", "")]), ("es", [("k", "hola")])] }

/-- Concrete events driving the abstract engine used to exercise
`EngineApp.run`: one choice event, then one dialogue event, mirroring the
fake engine of the repository test suite. -/
def fakeEvents : List Json :=
  [.obj [("type", .s "choice"), ("prompt", .s "Go?"), ("options", .arr [])],
   .obj [("type", .s "dialogue"), ("speaker", .s "Ava"), ("text", .s "Done")]]

/-- Index-driven fake engine over `fakeEvents` (as in the repository
tests): `current_event` raises a ValueError reading `script exhausted`
past the end, and `step`/`choose` advance the index. -/
def fakeEngine : PyEngine Nat :=
  { current_event := fun n =>
      match fakeEvents[n]? with
      | some e => .ok e
      | none => .error ⟨"ValueError", "script exhausted"⟩,
    stepFn := fun n => .ok (n + 1),
    chooseFn := fun n _ => .ok (n + 1) }

/-- One-dialogue script used to exhibit a concrete interpreter run. -/
def demoScript : Script :=
  { events := [.dialogue { speaker := "Ava", text := "Hola" }],
    labels := [("start", 0)], script_schema_version := "1.0" }

/-- A script whose single Jump event targets a label absent from its
(empty) labels map. -/
def danglingScript : Script :=
  { events := [.jump { target := "missing" }], labels := [],
    script_schema_version := "1.0" }

/-- Reduction of a successful `Except` bind (do-notation). -/
@[simp] theorem exceptBind_ok {ε α β : Type} (a : α) (g : α → Except ε β) :
    (Except.ok a : Except ε α) >>= g = g a := rfl

/-- Reduction of a failed `Except` bind (do-notation). -/
@[simp] theorem exceptBind_error {ε α β : Type} (e : ε) (g : α → Except ε β) :
    (Except.error e : Except ε α) >>= g = .error e := rfl

/-- Reduction of `Except.map` on a success. -/
@[simp] theorem exceptMap_ok {ε α β : Type} (g : α → β) (a : α) :
    Except.map g (Except.ok a : Except ε α) = .ok (g a) := rfl

/-- Reduction of `Except.map` on a failure. -/
@[simp] theorem exceptMap_error {ε α β : Type} (g : α → β) (e : ε) :
    Except.map g (Except.error e : Except ε α) = .error e := rfl

/-- C10: `resolve_or_key` returns the key itself when neither the
requested locale's table nor the default locale's table contains the key,
and also when the resolved translation is the empty string; and whenever
the requested locale's table contains the key, that entry is what
`resolve` returns, taking precedence over the default locale's entry. -/
theorem resolve_or_key_fallback_and_precedence
    (c : LocalizationCatalog) (locale key : String) :
    ((((c.locales.lookup locale).getD []).lookup key = none ∧
      ((c.locales.lookup c.default_locale).getD []).lookup key = none) →
        c.resolve_or_key locale key = key) ∧
    (c.resolve locale key = some "" → c.resolve_or_key locale key = key) ∧
    (∀ table v, c.locales.lookup locale = some table → table.lookup key = some v →
      c.resolve locale key = some v) := by
  refine ⟨?_, ?_, ?_⟩
  · rintro ⟨h1, h2⟩
    cases hcl : c.locales.lookup locale with
    | none =>
      simp only [LocalizationCatalog.resolve_or_key, LocalizationCatalog.resolve, hcl, h2]
    | some table =>
      rw [hcl] at h1
      simp only [Option.getD] at h1
      simp only [LocalizationCatalog.resolve_or_key, LocalizationCatalog.resolve, hcl, h1, h2]
  · intro h
    simp [LocalizationCatalog.resolve_or_key, h]
  · intro table v h1 h2
    simp only [LocalizationCatalog.resolve, h1, h2]

/-- C10 witness: on a concrete catalog, a key missing from both tables
comes back unchanged, a key whose default translation is empty comes back
unchanged, and the requested locale's entry wins over the default. -/
theorem resolve_or_key_fallback_and_precedence_witness :
    demoCatalog.resolve_or_key "es" "zzz" = "zzz" ∧
    demoCatalog.resolve_or_key "es" "empty" = "empty" ∧
    demoCatalog.resolve "es" "k" = some "hola" :=
  ⟨(resolve_or_key_fallback_and_precedence demoCatalog "es" "zzz").1 ⟨rfl, rfl⟩,
   (resolve_or_key_fallback_and_precedence demoCatalog "es" "empty").2.1 rfl,
   (resolve_or_key_fallback_and_precedence demoCatalog "es" "k").2.2
     [("k", "hola")] "hola" rfl rfl⟩

/-- C5 (counterexample): `Script.from_dict` successfully constructs a
Script whose label value 5 is not a valid event index, the event list
being empty — so successful construction does not guarantee that label
values are in range. -/
theorem from_dict_label_out_of_range_counterexample :
    Script.from_dict (.obj [("script_schema_version", .s "1.0"),
      ("events", .arr []), ("labels", .obj [("start", .i 5)])]) =
      .ok { events := [], labels := [("start", 5)], script_schema_version := "1.0" } ∧
    ¬((5 : Int) < (([] : List Event).length : Int)) :=
  ⟨rfl, by decide⟩

/-- C5 (amended): construction performs no range check on label values at
all — for every integer n (negative or arbitrarily large), a script with
zero events and the single label start→n is constructed successfully. -/
theorem from_dict_accepts_any_label_index (n : Int) :
    Script.from_dict (.obj [("script_schema_version", .s "1.0"),
      ("events", .arr []), ("labels", .obj [("start", .i n)])]) =
      .ok { events := [], labels := [("start", n)], script_schema_version := "1.0" } :=
  rfl

/-- C1 (counterexample): deserializing a script whose single Jump event
targets the label missing, absent from the empty labels map, succeeds —
no validation error is raised and a Script holding a dangling branch
target is returned. -/
theorem from_dict_dangling_target_counterexample :
    Script.from_dict (.obj [("script_schema_version", .s "1.0"),
      ("events", .arr [.obj [("type", .s "jump"), ("target", .s "missing")]]),
      ("labels", .obj [])]) =
      .ok { events := [.jump { target := "missing" }], labels := [],
            script_schema_version := "1.0" } ∧
    ([] : List (String × Int)).lookup "missing" = none :=
  ⟨rfl, rfl⟩

/-- C4 (counterexample): a SetVar event whose value field is the JSON
boolean true — not an integer — deserializes successfully instead of
raising, because Python bool is a subclass of int. -/
theorem set_var_accepts_boolean_counterexample :
    SetVar.from_dict (kvDict "k" (.b true)) = .ok { key := "k", value := 1 } :=
  rfl

/-- C4 (amended): `SetFlag.from_dict` accepts exactly boolean values and
preserves them, rejecting every other value; `SetVar.from_dict` accepts
integer values and preserves them, and — Python bool being a subclass of
int — also accepts booleans (true as 1, false as 0), while rejecting
every value that is neither an int nor a bool. No string or float is
silently coerced by either. -/
theorem set_flag_set_var_value_typing (k : String) (v : Json) :
    (∀ bv, v = .b bv → SetFlag.from_dict (kvDict k v) = .ok { key := k, value := bv }) ∧
    ((∀ bv, v ≠ .b bv) → exceptOk (SetFlag.from_dict (kvDict k v)) = false) ∧
    (∀ n, v = .i n → SetVar.from_dict (kvDict k v) = .ok { key := k, value := n }) ∧
    (∀ bv, v = .b bv →
      SetVar.from_dict (kvDict k v) = .ok { key := k, value := if bv then 1 else 0 }) ∧
    ((∀ n, v ≠ .i n) → (∀ bv, v ≠ .b bv) →
      exceptOk (SetVar.from_dict (kvDict k v)) = false) := by
  refine ⟨?_, ?_, ?_, ?_, ?_⟩
  · rintro bv rfl; rfl
  · intro h
    cases v with
    | b bv => exact absurd rfl (h bv)
    | null => rfl
    | i n => rfl
    | f q => rfl
    | s t => rfl
    | arr l => rfl
    | obj l => rfl
  · rintro n rfl; rfl
  · rintro bv rfl; rfl
  · intro hi hb
    cases v with
    | b bv => exact absurd rfl (hb bv)
    | i n => exact absurd rfl (hi n)
    | null => rfl
    | f q => rfl
    | s t => rfl
    | arr l => rfl
    | obj l => rfl

/-- C4 witness: concrete instances of each part — a boolean flag value is
preserved, a string flag value is rejected, an integer var value is
preserved, a boolean var value is accepted as its integer form, and a
numeric string var value is rejected. -/
theorem set_flag_set_var_value_typing_witness :
    SetFlag.from_dict (kvDict "k" (.b true)) = .ok { key := "k", value := true } ∧
    exceptOk (SetFlag.from_dict (kvDict "k" (.s "false"))) = false ∧
    SetVar.from_dict (kvDict "n" (.i 5)) = .ok { key := "n", value := 5 } ∧
    SetVar.from_dict (kvDict "n" (.b false)) = .ok { key := "n", value := if false then 1 else 0 } ∧
    exceptOk (SetVar.from_dict (kvDict "n" (.s "5"))) = false :=
  ⟨(set_flag_set_var_value_typing "k" (.b true)).1 true rfl,
   (set_flag_set_var_value_typing "k" (.s "false")).2.1 (fun _bv h => Json.noConfusion h),
   (set_flag_set_var_value_typing "n" (.i 5)).2.2.1 5 rfl,
   (set_flag_set_var_value_typing "n" (.b false)).2.2.2.1 false rfl,
   (set_flag_set_var_value_typing "n" (.s "5")).2.2.2.2
     (fun _n h => Json.noConfusion h) (fun _bv h => Json.noConfusion h)⟩

/-- C2 (counterexample): an input whose script_schema_version equals
"1.0" exactly can still fail at load time — here because an event's type
discriminator is unknown — so load does not fail only on version
rejection. -/
theorem from_dict_fails_with_valid_version_counterexample :
    exceptOk (Script.from_dict (.obj [("script_schema_version", .s "1.0"),
      ("events", .arr [.obj [("type", .s "bogus")]]), ("labels", .obj [])])) = false ∧
    versionField (.obj [("script_schema_version", .s "1.0"),
      ("events", .arr [.obj [("type", .s "bogus")]]), ("labels", .obj [])]) =
      some (.s "1.0") :=
  ⟨rfl, rfl⟩

/-- C2 (amended): `Script.from_dict` rejects every input whose
script_schema_version is missing (or null, or whose carrier is not a
mapping) and every input whose version's string value differs from the
supported "1.0"; and it never succeeds except on inputs whose version
string equals "1.0" exactly. Version validity alone does not guarantee
acceptance, since events and labels may independently fail to parse. -/
theorem from_dict_version_gate (j : Json) :
    (versionField j = none → exceptOk (Script.from_dict j) = false) ∧
    (∀ v, versionField j = some v → pyStr v ≠ "1.0" →
      exceptOk (Script.from_dict j) = false) ∧
    (∀ s, Script.from_dict j = .ok s →
      ∃ v, versionField j = some v ∧ pyStr v = "1.0") := by
  cases j with
  | obj fields =>
    cases hl : fields.lookup "script_schema_version" with
    | none =>
      refine ⟨?_, ?_, ?_⟩
      · intro _
        simp [Script.from_dict, exceptOk, pyGet, hl, jsonIsNull]
      · intro v hv
        simp [versionField, hl] at hv
      · intro s hs
        simp [Script.from_dict, exceptOk, pyGet, hl, jsonIsNull] at hs
    | some v =>
      cases v with
      | null =>
        refine ⟨?_, ?_, ?_⟩
        · intro _
          simp [Script.from_dict, exceptOk, pyGet, hl, jsonIsNull]
        · intro v2 hv2
          simp [versionField, hl, jsonIsNull] at hv2
        · intro s hs
          simp [Script.from_dict, exceptOk, pyGet, hl, jsonIsNull] at hs
      | s t =>
        refine ⟨?_, ?_, ?_⟩
        · intro h
          simp [versionField, hl, jsonIsNull] at h
        · intro v2 hv2 hne
          simp [versionField, hl, jsonIsNull] at hv2
          subst hv2
          simp only [pyStr] at hne
          simp [Script.from_dict, exceptOk, pyGet, hl, jsonIsNull, pyStr, SCRIPT_SCHEMA_VERSION, hne]
        · intro s hs
          refine ⟨.s t, by simp [versionField, hl, jsonIsNull], ?_⟩
          by_contra hne
          simp only [pyStr] at hne
          simp [Script.from_dict, exceptOk, pyGet, hl, jsonIsNull, pyStr, SCRIPT_SCHEMA_VERSION, hne] at hs
      | b bv =>
        refine ⟨?_, ?_, ?_⟩
        · intro h
          simp [versionField, hl, jsonIsNull] at h
        · intro v2 hv2 hne
          simp [versionField, hl, jsonIsNull] at hv2
          subst hv2
          simp [Script.from_dict, exceptOk, pyGet, hl, jsonIsNull, SCRIPT_SCHEMA_VERSION,
            show pyStr (.b bv) ≠ "1.0" by cases bv <;> simp [pyStr]]
        · intro s hs
          have : pyStr (.b bv) ≠ "1.0" := by cases bv <;> simp [pyStr]
          simp [Script.from_dict, exceptOk, pyGet, hl, jsonIsNull, SCRIPT_SCHEMA_VERSION, this] at hs
      | i n =>
        refine ⟨?_, ?_, ?_⟩
        · intro h
          simp [versionField, hl, jsonIsNull] at h
        · intro v2 hv2 hne
          simp [versionField, hl, jsonIsNull] at hv2
          subst hv2
          simp [Script.from_dict, exceptOk, pyGet, hl, jsonIsNull, SCRIPT_SCHEMA_VERSION, hne]
        · intro s hs
          refine ⟨.i n, by simp [versionField, hl, jsonIsNull], ?_⟩
          by_contra hne
          simp [Script.from_dict, exceptOk, pyGet, hl, jsonIsNull, SCRIPT_SCHEMA_VERSION, hne] at hs
      | f q =>
        refine ⟨?_, ?_, ?_⟩
        · intro h
          simp [versionField, hl, jsonIsNull] at h
        · intro v2 hv2 hne
          simp [versionField, hl, jsonIsNull] at hv2
          subst hv2
          simp [Script.from_dict, exceptOk, pyGet, hl, jsonIsNull, SCRIPT_SCHEMA_VERSION, hne]
        · intro s hs
          refine ⟨.f q, by simp [versionField, hl, jsonIsNull], ?_⟩
          by_contra hne
          simp [Script.from_dict, exceptOk, pyGet, hl, jsonIsNull, SCRIPT_SCHEMA_VERSION, hne] at hs
      | arr l =>
        refine ⟨?_, ?_, ?_⟩
        · intro h
          simp [versionField, hl, jsonIsNull] at h
        · intro v2 hv2 hne
          simp [versionField, hl, jsonIsNull] at hv2
          subst hv2
          simp [Script.from_dict, exceptOk, pyGet, hl, jsonIsNull, SCRIPT_SCHEMA_VERSION,
            show pyStr (.arr l) ≠ "1.0" by simp [pyStr]]
        · intro s hs
          simp [Script.from_dict, exceptOk, pyGet, hl, jsonIsNull, SCRIPT_SCHEMA_VERSION,
            show pyStr (.arr l) ≠ "1.0" by simp [pyStr]] at hs
      | obj l =>
        refine ⟨?_, ?_, ?_⟩
        · intro h
          simp [versionField, hl, jsonIsNull] at h
        · intro v2 hv2 hne
          simp [versionField, hl, jsonIsNull] at hv2
          subst hv2
          simp [Script.from_dict, exceptOk, pyGet, hl, jsonIsNull, SCRIPT_SCHEMA_VERSION,
            show pyStr (.obj l) ≠ "1.0" by simp [pyStr]]
        · intro s hs
          simp [Script.from_dict, exceptOk, pyGet, hl, jsonIsNull, SCRIPT_SCHEMA_VERSION,
            show pyStr (.obj l) ≠ "1.0" by simp [pyStr]] at hs
  | null =>
    exact ⟨fun _ => rfl, fun v hv => by simp [versionField] at hv, fun s hs => by
      simp [Script.from_dict, exceptOk, pyGet] at hs⟩
  | b bv =>
    exact ⟨fun _ => rfl, fun v hv => by simp [versionField] at hv, fun s hs => by
      simp [Script.from_dict, exceptOk, pyGet] at hs⟩
  | i n =>
    exact ⟨fun _ => rfl, fun v hv => by simp [versionField] at hv, fun s hs => by
      simp [Script.from_dict, exceptOk, pyGet] at hs⟩
  | f q =>
    exact ⟨fun _ => rfl, fun v hv => by simp [versionField] at hv, fun s hs => by
      simp [Script.from_dict, exceptOk, pyGet] at hs⟩
  | s t =>
    exact ⟨fun _ => rfl, fun v hv => by simp [versionField] at hv, fun s hs => by
      simp [Script.from_dict, exceptOk, pyGet] at hs⟩
  | arr l =>
    exact ⟨fun _ => rfl, fun v hv => by simp [versionField] at hv, fun s hs => by
      simp [Script.from_dict, exceptOk, pyGet] at hs⟩

/-- C2 witness: a mapping without the version field is rejected, a
mapping whose version is "2.0" is rejected, and a successfully loaded
input indeed carries version string "1.0". -/
theorem from_dict_version_gate_witness :
    exceptOk (Script.from_dict (.obj [])) = false ∧
    exceptOk (Script.from_dict (.obj [("script_schema_version", .s "2.0")])) = false ∧
    (∃ v, versionField (.obj [("script_schema_version", .s "1.0")]) = some v ∧
      pyStr v = "1.0") :=
  ⟨(from_dict_version_gate (.obj [])).1 rfl,
   (from_dict_version_gate (.obj [("script_schema_version", .s "2.0")])).2.1
     (.s "2.0") rfl (by decide),
   (from_dict_version_gate (.obj [("script_schema_version", .s "1.0")])).2.2
     { events := [], labels := [], script_schema_version := "1.0" } rfl⟩

/-- C6: parsing an event object whose type discriminator is not one of
the twelve known event types fails with an error rather than being
silently skipped, and likewise parsing a condition whose kind is neither
flag nor var_cmp fails. (A missing or non-string discriminator matches no
known type either and also fails.) -/
theorem unknown_discriminators_rejected :
    (∀ j, (∀ t, evTypeOf j = some t → t ∉ knownEventTypes) →
      exceptOk (event_from_dict j) = false) ∧
    (∀ j, (∀ t, condKindOf j = some t → t ∉ ["flag", "var_cmp"]) →
      exceptOk (cond_from_dict j) = false) := by
  constructor
  · intro j h
    cases j with
    | obj fields =>
      cases hl : fields.lookup "type" with
      | none =>
        simp [event_from_dict, exceptOk, pyGet, hl, jsonEqStr]
      | some v =>
        cases v with
        | s t =>
          have ht : t ∉ knownEventTypes := h t (by simp [evTypeOf, hl])
          simp [knownEventTypes] at ht
          obtain ⟨h1, h2, h3, h4, h5, h6, h7, h8, h9, h10, h11, h12⟩ := ht
          simp [event_from_dict, exceptOk, pyGet, hl, jsonEqStr,
            h1, h2, h3, h4, h5, h6, h7, h8, h9, h10, h11, h12]
        | null => simp [event_from_dict, exceptOk, pyGet, hl, jsonEqStr]
        | b bv => simp [event_from_dict, exceptOk, pyGet, hl, jsonEqStr]
        | i n => simp [event_from_dict, exceptOk, pyGet, hl, jsonEqStr]
        | f q => simp [event_from_dict, exceptOk, pyGet, hl, jsonEqStr]
        | arr l => simp [event_from_dict, exceptOk, pyGet, hl, jsonEqStr]
        | obj l => simp [event_from_dict, exceptOk, pyGet, hl, jsonEqStr]
    | null => rfl
    | b bv => rfl
    | i n => rfl
    | f q => rfl
    | s t => rfl
    | arr l => rfl
  · intro j h
    cases j with
    | obj fields =>
      cases hl : fields.lookup "kind" with
      | none =>
        simp [cond_from_dict, exceptOk, pyGet, hl, jsonEqStr]
      | some v =>
        cases v with
        | s t =>
          have ht : t ∉ (["flag", "var_cmp"] : List String) := h t (by simp [condKindOf, hl])
          simp at ht
          obtain ⟨h1, h2⟩ := ht
          simp [cond_from_dict, exceptOk, pyGet, hl, jsonEqStr, h1, h2]
        | null => simp [cond_from_dict, exceptOk, pyGet, hl, jsonEqStr]
        | b bv => simp [cond_from_dict, exceptOk, pyGet, hl, jsonEqStr]
        | i n => simp [cond_from_dict, exceptOk, pyGet, hl, jsonEqStr]
        | f q => simp [cond_from_dict, exceptOk, pyGet, hl, jsonEqStr]
        | arr l => simp [cond_from_dict, exceptOk, pyGet, hl, jsonEqStr]
        | obj l => simp [cond_from_dict, exceptOk, pyGet, hl, jsonEqStr]
    | null => rfl
    | b bv => rfl
    | i n => rfl
    | f q => rfl
    | s t => rfl
    | arr l => rfl

/-- C6 witness: a concrete unknown event type and a concrete unknown
condition kind are both rejected. -/
theorem unknown_discriminators_rejected_witness :
    exceptOk (event_from_dict (.obj [("type", .s "mystery")])) = false ∧
    exceptOk (cond_from_dict (.obj [("kind", .s "mystery")])) = false :=
  ⟨unknown_discriminators_rejected.1 (.obj [("type", .s "mystery")])
     (fun t ht => by cases Option.some.inj ht; decide),
   unknown_discriminators_rejected.2 (.obj [("kind", .s "mystery")])
     (fun t ht => by cases Option.some.inj ht; decide)⟩

/-- Concatenation of strings concatenates their character lists. -/
theorem string_toList_append (a b : String) : (a ++ b).toList = a.toList ++ b.toList := by
  cases a; cases b; rfl

/-- Rebuilding a string from its character list is the identity. -/
theorem string_mk_toList (s : String) : String.mk s.toList = s := by cases s; rfl

/-- A common prefix cancels on the left of string concatenation. -/
theorem string_append_left_cancel (p a b : String) (h : p ++ a = p ++ b) : a = b := by
  cases p with
  | mk pd =>
    cases a with
    | mk ad =>
      cases b with
      | mk bd =>
        have hd : pd ++ ad = pd ++ bd := congrArg String.data h
        exact congrArg String.mk (List.append_cancel_left hd)

/-- `startswith` holds exactly when the string splits as prefix ++ rest. -/
theorem strStartsWith_iff (v p : String) : strStartsWith v p = true ↔ ∃ w, v = p ++ w := by
  cases v with
  | mk vd =>
    cases p with
    | mk pd =>
      constructor
      · intro h
        obtain ⟨t, ht⟩ := List.isPrefixOf_iff_prefix.mp h
        exact ⟨String.mk t, (congrArg String.mk ht).symm⟩
      · rintro ⟨w, hw⟩
        cases w with
        | mk wd =>
          exact List.isPrefixOf_iff_prefix.mpr ⟨wd, (congrArg String.data hw).symm⟩

/-- Dropping the four sentinel characters recovers the remainder. -/
theorem strDrop_append_four (w : String) : strDrop ("loc:" ++ w) 4 = w := by
  cases w with
  | mk wd =>
    exact congrArg String.mk (by simp [string_toList_append])

/-- `_extract_loc_key` succeeds with key k exactly when the stripped value
splits as `loc:` followed by a remainder whose stripped form is the
non-empty k. -/
theorem extract_loc_key_eq_some_iff (v k : String) :
    extract_loc_key v = some k ↔
      ∃ w, pyStrip v = "loc:" ++ w ∧ pyStrip w = k ∧ k ≠ "" := by
  unfold extract_loc_key
  by_cases hs : strStartsWith (pyStrip v) "loc:" = true
  · obtain ⟨w, hw⟩ := (strStartsWith_iff _ _).mp hs
    rw [hw] at hs ⊢
    simp only [hs, if_true, strDrop_append_four]
    constructor
    · intro h
      by_cases hk : pyStrip w = ""
      · simp [hk] at h
      · simp only [hk, if_false, Option.some.injEq] at h
        exact ⟨w, rfl, h, by rw [← h]; exact hk⟩
    · rintro ⟨w2, hw2, hk2, hne⟩
      have hww : w = w2 := string_append_left_cancel "loc:" w w2 hw2
      subst hww
      rw [hk2]
      simp [hne]
  · simp only [Bool.not_eq_true] at hs
    simp only [hs, Bool.false_eq_true, if_false]
    constructor
    · intro h
      exact absurd h (by simp)
    · rintro ⟨w, hw, -, -⟩
      have : strStartsWith (pyStrip v) "loc:" = true := (strStartsWith_iff _ _).mpr ⟨w, hw⟩
      rw [hs] at this
      exact absurd this (by simp)

/-- The keys one event contributes are exactly the successful extractions
over its localization source fields. -/
theorem mem_eventLocKeys_iff (e : Event) (k : String) :
    k ∈ eventLocKeys e ↔ ∃ v, IsLocSourceField e v ∧ extract_loc_key v = some k := by
  cases e <;> (simp [eventLocKeys, IsLocSourceField, List.mem_filterMap]; try aesop)

/-- C8: `collect_script_localization_keys` contains exactly the keys k
such that some Dialogue speaker or text field, some Choice prompt field,
or some Choice option text field, after stripping whitespace, reads
`loc:` followed by a remainder that strips to the non-empty k; fields of
every other event variant contribute no keys. -/
theorem collect_localization_keys_spec (s : Script) (k : String) :
    k ∈ collect_script_localization_keys s ↔
      ∃ e ∈ s.events, ∃ v, IsLocSourceField e v ∧
        ∃ w, pyStrip v = "loc:" ++ w ∧ pyStrip w = k ∧ k ≠ "" := by
  unfold collect_script_localization_keys
  rw [List.mem_flatMap]
  constructor
  · rintro ⟨e, he, hk⟩
    obtain ⟨v, hv, hex⟩ := (mem_eventLocKeys_iff e k).mp hk
    exact ⟨e, he, v, hv, (extract_loc_key_eq_some_iff v k).mp hex⟩
  · rintro ⟨e, he, v, hv, hw⟩
    exact ⟨e, he, (mem_eventLocKeys_iff e k).mpr
      ⟨v, hv, (extract_loc_key_eq_some_iff v k).mpr hw⟩⟩

/-- `mapExcept` over an elementwise-serialized list recovers the list. -/
theorem mapExcept_map_ok {α β : Type} (g : β → Except PyErr α) (f : α → β)
    (l : List α) (h : ∀ x ∈ l, g (f x) = .ok x) : mapExcept g (l.map f) = .ok l := by
  induction l with
  | nil => rfl
  | cons a t ih =>
    simp only [List.map_cons, mapExcept, h a (List.mem_cons_self a t),
      ih (fun x hx => h x (List.mem_cons_of_mem a hx)), exceptBind_ok]

/-- Stringifying serialized strings is the identity. -/
theorem map_pyStr_s (l : List String) : (l.map Json.s).map pyStr = l := by
  induction l with
  | nil => rfl
  | cons a t ih => simp [pyStr, ih]

/-- Composed form of the previous lemma, as simp normalizes map-of-map. -/
theorem map_pyStr_comp (l : List String) : l.map (pyStr ∘ Json.s) = l := by
  induction l with
  | nil => rfl
  | cons a t ih => simp [Function.comp, pyStr, ih]

/-- Optional-string fields survive serialization. -/
theorem optStr_round (o : Option String) : optStrOfJson (jsonOfOptStr o) = o := by
  cases o <;> rfl

/-- Round trip for ChoiceOption. -/
theorem choiceOption_round_trip (o : ChoiceOption) :
    ChoiceOption.from_dict o.to_dict = .ok o := by
  cases o; rfl

/-- Round trip for Dialogue. -/
theorem dialogue_round_trip (d : Dialogue) : Dialogue.from_dict d.to_dict = .ok d := by
  cases d; rfl

/-- Round trip for Choice. -/
theorem choice_round_trip (c : Choice) : Choice.from_dict c.to_dict = .ok c := by
  cases c with
  | mk prompt options =>
    have hm := mapExcept_map_ok ChoiceOption.from_dict ChoiceOption.to_dict options
      (fun o _ => choiceOption_round_trip o)
    simp [Choice.from_dict, Choice.to_dict, pyGet, pyItem, pyIter, List.lookup, hm, pyStr]

/-- Round trip for CharacterPlacement. -/
theorem characterPlacement_round_trip (c : CharacterPlacement) :
    CharacterPlacement.from_dict c.to_dict = .ok c := by
  cases c with
  | mk nm ex pos x y sc =>
    cases ex <;> cases pos <;> cases x <;> cases y <;> cases sc <;> rfl

/-- Round trip for CharacterPatch. -/
theorem characterPatch_round_trip (c : CharacterPatch) :
    CharacterPatch.from_dict c.to_dict = .ok c := by
  cases c with
  | mk nm ex pos => cases ex <;> cases pos <;> rfl

/-- Round trip for Scene. -/
theorem scene_round_trip (sc : Scene) : Scene.from_dict sc.to_dict = .ok sc := by
  cases sc with
  | mk bg mu chars =>
    have hm := mapExcept_map_ok CharacterPlacement.from_dict CharacterPlacement.to_dict chars
      (fun c _ => characterPlacement_round_trip c)
    simp [Scene.from_dict, Scene.to_dict, pyGet, pyItem, pyIter, List.lookup, hm,
      optStr_round]

/-- Round trip for Patch. -/
theorem patch_round_trip (p : Patch) : Patch.from_dict p.to_dict = .ok p := by
  cases p with
  | mk bg mu add update remove =>
    have hadd := mapExcept_map_ok CharacterPlacement.from_dict CharacterPlacement.to_dict add
      (fun c _ => characterPlacement_round_trip c)
    have hupd := mapExcept_map_ok CharacterPatch.from_dict CharacterPatch.to_dict update
      (fun c _ => characterPatch_round_trip c)
    simp [Patch.from_dict, Patch.to_dict, pyGet, pyItem, pyIter, List.lookup, hadd, hupd,
      map_pyStr_s, map_pyStr_comp, optStr_round]

/-- Round trip for AudioAction. -/
theorem audioAction_round_trip (a : AudioAction) :
    AudioAction.from_dict a.to_dict = .ok a := by
  cases a with
  | mk ch ac asset vol fade loopv =>
    cases asset <;> cases vol <;> cases fade <;> cases loopv <;> rfl

/-- Round trip for Transition. -/
theorem transition_round_trip (t : Transition) :
    Transition.from_dict t.to_dict = .ok t := by
  cases t with
  | mk kd dur color => cases color <;> rfl

/-- Round trip for SetCharacterPosition. -/
theorem setCharacterPosition_round_trip (p : SetCharacterPosition) :
    SetCharacterPosition.from_dict p.to_dict = .ok p := by
  cases p with
  | mk nm x y sc => cases sc <;> rfl

/-- Round trip for ExtCall. -/
theorem extCall_round_trip (e : ExtCall) : ExtCall.from_dict e.to_dict = .ok e := by
  cases e with
  | mk cmd args =>
    simp [ExtCall.from_dict, ExtCall.to_dict, pyGet, pyItem, pyIter, List.lookup,
      map_pyStr_s, map_pyStr_comp, pyStr]

/-- Round trip for Jump. -/
theorem jump_round_trip (j : Jump) : Jump.from_dict j.to_dict = .ok j := by
  cases j; rfl

/-- Round trip for SetFlag. -/
theorem setFlag_round_trip (sf : SetFlag) : SetFlag.from_dict sf.to_dict = .ok sf := by
  cases sf; rfl

/-- Round trip for SetVar. -/
theorem setVar_round_trip (sv : SetVar) : SetVar.from_dict sv.to_dict = .ok sv := by
  cases sv; rfl

/-- Round trip for conditions. -/
theorem cond_round_trip (c : Cond) : cond_from_dict c.to_dict = .ok c := by
  cases c with
  | flag cf => cases cf; rfl
  | var_cmp cv => cases cv; rfl

/-- Round trip for JumpIf. -/
theorem jumpIf_round_trip (j : JumpIf) : JumpIf.from_dict j.to_dict = .ok j := by
  cases j with
  | mk cond target =>
    cases cond with
    | flag cf => cases cf; rfl
    | var_cmp cv => cases cv; rfl

/-- Round trip for every event variant through the tagged dispatch. -/
theorem event_round_trip (e : Event) : event_from_dict e.to_dict = .ok e := by
  cases e with
  | dialogue d =>
    have ht : pyGet (Dialogue.to_dict d) "type" .null = .ok (.s "dialogue") := rfl
    simp [event_from_dict, Event.to_dict, ht, jsonEqStr, dialogue_round_trip d]
  | choice c =>
    have ht : pyGet (Choice.to_dict c) "type" .null = .ok (.s "choice") := rfl
    simp [event_from_dict, Event.to_dict, ht, jsonEqStr, choice_round_trip c]
  | scene sc =>
    have ht : pyGet (Scene.to_dict sc) "type" .null = .ok (.s "scene") := rfl
    simp [event_from_dict, Event.to_dict, ht, jsonEqStr, scene_round_trip sc]
  | jump j =>
    have ht : pyGet (Jump.to_dict j) "type" .null = .ok (.s "jump") := rfl
    simp [event_from_dict, Event.to_dict, ht, jsonEqStr, jump_round_trip j]
  | set_flag sf =>
    have ht : pyGet (SetFlag.to_dict sf) "type" .null = .ok (.s "set_flag") := rfl
    simp [event_from_dict, Event.to_dict, ht, jsonEqStr, setFlag_round_trip sf]
  | set_var sv =>
    have ht : pyGet (SetVar.to_dict sv) "type" .null = .ok (.s "set_var") := rfl
    simp [event_from_dict, Event.to_dict, ht, jsonEqStr, setVar_round_trip sv]
  | jump_if j =>
    have ht : pyGet (JumpIf.to_dict j) "type" .null = .ok (.s "jump_if") := rfl
    simp [event_from_dict, Event.to_dict, ht, jsonEqStr, jumpIf_round_trip j]
  | patch p =>
    have ht : pyGet (Patch.to_dict p) "type" .null = .ok (.s "patch") := rfl
    simp [event_from_dict, Event.to_dict, ht, jsonEqStr, patch_round_trip p]
  | audio_action a =>
    have ht : pyGet (AudioAction.to_dict a) "type" .null = .ok (.s "audio_action") := rfl
    simp [event_from_dict, Event.to_dict, ht, jsonEqStr, audioAction_round_trip a]
  | transition t =>
    have ht : pyGet (Transition.to_dict t) "type" .null = .ok (.s "transition") := rfl
    simp [event_from_dict, Event.to_dict, ht, jsonEqStr, transition_round_trip t]
  | set_character_position p =>
    have ht : pyGet (SetCharacterPosition.to_dict p) "type" .null =
        .ok (.s "set_character_position") := rfl
    simp [event_from_dict, Event.to_dict, ht, jsonEqStr, setCharacterPosition_round_trip p]
  | ext_call ec =>
    have ht : pyGet (ExtCall.to_dict ec) "type" .null = .ok (.s "ext_call") := rfl
    simp [event_from_dict, Event.to_dict, ht, jsonEqStr, extCall_round_trip ec]

/-- Parsing the serialized labels graph recovers the graph. -/
theorem mapExcept_label_graph (ks : List String) (g : String → Int) :
    mapExcept (fun p => (pyInt p.2).map (fun n => (p.1, n)))
      (ks.map fun k => (k, Json.i (g k))) = .ok (ks.map fun k => (k, g k)) := by
  induction ks with
  | nil => rfl
  | cons a t ih =>
    rw [List.map_cons, List.map_cons]
    show (do
      let y ← (pyInt (Json.i (g a))).map (fun n => (a, n))
      let ys ← mapExcept (fun p : String × Json => (pyInt p.2).map (fun n => (p.1, n)))
        (t.map fun k => (k, Json.i (g k)))
      Except.ok (y :: ys)) = _
    rw [ih]
    rfl

/-- `Script.from_dict` of `Script.to_dict`: the events come back intact
and the labels come back as the sorted-key graph of the original map. -/
theorem script_from_to (s : Script) (hv : s.script_schema_version = "1.0") :
    Script.from_dict s.to_dict = .ok
      { events := s.events,
        labels := (sortedKeys s.labels).map (fun k => (k, (s.labels.lookup k).getD 0)),
        script_schema_version := s.script_schema_version } := by
  cases s with
  | mk ev lab ver =>
    simp only at hv
    subst hv
    have hev : mapExcept event_from_dict (ev.map Event.to_dict) = .ok ev :=
      mapExcept_map_ok event_from_dict Event.to_dict ev (fun e _ => event_round_trip e)
    have hlab := mapExcept_label_graph (sortedKeys lab) (fun k => (lab.lookup k).getD 0)
    simp [Script.from_dict, Script.to_dict, pyGet, List.lookup, jsonIsNull, pyStr,
      SCRIPT_SCHEMA_VERSION, pyIter, pyItems, hev, hlab]

/-- Lookup in the graph of a function over a key list. -/
theorem lookup_map_graph (ks : List String) (g : String → Int) (k : String) :
    (ks.map fun k2 => (k2, g k2)).lookup k = if k ∈ ks then some (g k) else none := by
  induction ks with
  | nil => rfl
  | cons a t ih =>
    by_cases hk : k = a
    · subst hk
      simp [List.lookup]
    · have hb : (k == a) = false := beq_eq_false_iff_ne.mpr hk
      simp [List.lookup, hb, ih, hk]

/-- A key absent from the key list looks up to none. -/
theorem lookup_eq_none_of_not_mem_keys (l : List (String × Int)) (k : String)
    (h : k ∉ l.map Prod.fst) : l.lookup k = none := by
  induction l with
  | nil => rfl
  | cons a t ih =>
    obtain ⟨a1, a2⟩ := a
    simp only [List.map_cons, List.mem_cons, not_or] at h
    obtain ⟨h1, h2⟩ := h
    have hb : (k == a1) = false := beq_eq_false_iff_ne.mpr h1
    simp [List.lookup, hb, ih h2]

/-- A key among the keys looks up to some value. -/
theorem lookup_mem_keys (l : List (String × Int)) (k : String)
    (h : k ∈ l.map Prod.fst) : ∃ v, l.lookup k = some v := by
  induction l with
  | nil => simp at h
  | cons a t ih =>
    obtain ⟨a1, a2⟩ := a
    by_cases hk : k = a1
    · subst hk
      exact ⟨a2, by simp [List.lookup]⟩
    · have hb : (k == a1) = false := beq_eq_false_iff_ne.mpr hk
      simp only [List.map_cons, List.mem_cons] at h
      rcases h with h | h
      · exact absurd h hk
      · obtain ⟨v, hv⟩ := ih h
        exact ⟨v, by simp [List.lookup, hb, hv]⟩

/-- C3 (amended): for every Script whose schema version is the supported
"1.0", deserializing its serialized form succeeds and reproduces a
structurally equal Script: same version, same ordered event list with all
per-variant fields equal, and the same label mapping (labels are re-keyed
in sorted order by `to_dict`, so equality of the mapping is lookup
equality, which is what Python dict equality checks). -/
theorem script_round_trip (s : Script) (hv : s.script_schema_version = "1.0") :
    ∃ s2, Script.from_json s.to_json = .ok s2 ∧
      s2.script_schema_version = s.script_schema_version ∧
      s2.events = s.events ∧
      ∀ k, s2.labels.lookup k = s.labels.lookup k := by
  refine ⟨_, script_from_to s hv, rfl, rfl, ?_⟩
  intro k
  show ((sortedKeys s.labels).map fun k2 => (k2, (s.labels.lookup k2).getD 0)).lookup k = _
  rw [lookup_map_graph]
  by_cases hm : k ∈ sortedKeys s.labels
  · have hp : List.Perm (sortedKeys s.labels) (s.labels.map Prod.fst) :=
      List.mergeSort_perm _ _
    obtain ⟨v, hv2⟩ := lookup_mem_keys _ _ (hp.mem_iff.mp hm)
    simp [hm, hv2]
  · have hp : List.Perm (sortedKeys s.labels) (s.labels.map Prod.fst) :=
      List.mergeSort_perm _ _
    rw [lookup_eq_none_of_not_mem_keys _ _ (fun hc => hm (hp.mem_iff.mpr hc))]
    simp [hm]

/-- C3 witness: the round trip at a concrete one-dialogue script with one
label. -/
theorem script_round_trip_witness :
    ∃ s2, Script.from_json (Script.to_json demoScript) = .ok s2 ∧
      s2.script_schema_version = demoScript.script_schema_version ∧
      s2.events = demoScript.events ∧
      ∀ k, s2.labels.lookup k = demoScript.labels.lookup k :=
  script_round_trip demoScript rfl

/-- C3 (counterexample): a Script built from the model types with schema
version "2.0" serializes, but deserializing the result fails the version
check, so the round trip does not succeed for every model Script. -/
theorem script_round_trip_version_counterexample :
    exceptOk (Script.from_json (Script.to_json
      { events := [], labels := [], script_schema_version := "2.0" })) = false := rfl

/-- C1 (amended): `Script.from_dict` does not validate branch targets:
even when some Jump/JumpIf/Choice event of the script carries a target
with no entry in the labels map, deserializing the serialized script
still succeeds and returns a Script. -/
theorem from_dict_ignores_dangling_targets (s : Script)
    (hv : s.script_schema_version = "1.0")
    (_hdangling : ∃ e ∈ s.events, ∃ t ∈ eventTargets e, s.labels.lookup t = none) :
    ∃ s2, Script.from_dict s.to_dict = .ok s2 :=
  ⟨_, script_from_to s hv⟩

/-- C1 witness: the dangling-target hypothesis and the construction both
hold concretely for the one-jump script with an empty label map. -/
theorem from_dict_ignores_dangling_targets_witness :
    ∃ s2, Script.from_dict danglingScript.to_dict = .ok s2 :=
  from_dict_ignores_dangling_targets danglingScript rfl
    ⟨.jump { target := "missing" }, by simp [danglingScript],
     "missing", by simp [eventTargets], rfl⟩

/-- C9: every terminating execution of `EngineApp.run` satisfies the
claimed behaviour: it collects, in order, exactly the events
`current_event` returned; it finishes normally exactly when
`current_event` raises a ValueError whose message contains `script
exhausted`, and re-raises any other exception; for each choice event it
calls `choose` once with the chooser's index (0 without a chooser), and
for every other event it calls `step` once. -/
theorem engine_app_run_spec {σ : Type} (eng : PyEngine σ) (chooser : Option (Json → Int))
    (fuel : Nat) (st : σ) (r : Except PyErr (List Json))
    (h : EngineApp.runFuel eng chooser fuel st = some r) :
    RunSpec eng chooser st r := by
  induction fuel generalizing st r with
  | zero => simp [EngineApp.runFuel] at h
  | succ n ih =>
    rw [EngineApp.runFuel] at h
    cases hce : eng.current_event st with
    | error exc =>
      simp only [hce] at h
      by_cases hex : isScriptExhausted exc = true
      · rw [if_pos hex] at h
        obtain ⟨h1, h2⟩ := Bool.and_eq_true_iff.mp hex
        cases Option.some.inj h
        exact RunSpec.exhausted st exc hce (beq_iff_eq.mp h1) h2
      · rw [if_neg hex] at h
        cases Option.some.inj h
        refine RunSpec.reraise st exc hce ?_
        rintro ⟨hc, hm⟩
        exact hex (by simp [isScriptExhausted, hc, hm])
    | ok event =>
      simp only [hce] at h
      cases hng : pyGet event "type" .null with
      | error exc =>
        simp only [hng, exceptBind_error] at h
        cases Option.some.inj h
        exact RunSpec.typeRaise st event exc hce hng
      | ok tv =>
        simp only [hng, exceptBind_ok] at h
        by_cases hch : jsonEqStr tv "choice" = true
        · rw [if_pos hch] at h
          cases hcf : eng.chooseFn st (chooseIndex chooser event) with
          | error exc =>
            simp only [hcf] at h
            cases Option.some.inj h
            exact RunSpec.choiceRaise st event tv exc hce hng hch hcf
          | ok st2 =>
            simp only [hcf] at h
            cases hrf : EngineApp.runFuel eng chooser n st2 with
            | none => simp only [hrf] at h; cases h
            | some rest =>
              simp only [hrf] at h
              cases rest with
              | ok evs =>
                cases Option.some.inj h
                exact RunSpec.choiceOk st event tv st2 (.ok evs) hce hng hch hcf
                  (ih st2 _ hrf)
              | error exc =>
                cases Option.some.inj h
                exact RunSpec.choiceOk st event tv st2 (.error exc) hce hng hch hcf
                  (ih st2 _ hrf)
        · rw [if_neg hch] at h
          have hch2 : jsonEqStr tv "choice" = false := by
            cases hb : jsonEqStr tv "choice" with
            | true => exact absurd hb hch
            | false => rfl
          cases hcf : eng.stepFn st with
          | error exc =>
            simp only [hcf] at h
            cases Option.some.inj h
            exact RunSpec.stepRaise st event tv exc hce hng hch2 hcf
          | ok st2 =>
            simp only [hcf] at h
            cases hrf : EngineApp.runFuel eng chooser n st2 with
            | none => simp only [hrf] at h; cases h
            | some rest =>
              simp only [hrf] at h
              cases rest with
              | ok evs =>
                cases Option.some.inj h
                exact RunSpec.stepOk st event tv st2 (.ok evs) hce hng hch2 hcf
                  (ih st2 _ hrf)
              | error exc =>
                cases Option.some.inj h
                exact RunSpec.stepOk st event tv st2 (.error exc) hce hng hch2 hcf
                  (ih st2 _ hrf)

/-- C9 witness: a concrete two-event run of the fake engine — one choice
event resolved with the default index, one dialogue event stepped past,
then normal termination on the `script exhausted` error — satisfies the
specification with both events collected in order. -/
theorem engine_app_run_spec_witness :
    RunSpec fakeEngine none 0 (.ok fakeEvents) :=
  engine_app_run_spec fakeEngine none 3 0 (.ok fakeEvents) rfl

/-- One interpreter call is deterministic: from the same state, the same
call can only produce one successor state and one result. -/
theorem engStep_deterministic (script : Script) (s s1 s2 : EngState) (c : EngCall)
    (o1 o2 : EngOut) (h1 : EngStep script s c s1 o1) (h2 : EngStep script s c s2 o2) :
    s1 = s2 ∧ o1 = o2 := by
  cases h1 <;> cases h2 <;> simp_all [isAwaiting, isSuspendedMode] <;> omega

/-- C7: the interpreter is deterministic — for a fixed script, a fixed
starting execution state, and a fixed sequence of step/choose/resume
calls, any two runs produce the identical trace of results (events
returned plus drained audio commands, or errors) and visual-state
snapshots. (Modelled from the spec: the interpreter lives in the native
module, absent from the sources.) -/
theorem eng_run_deterministic (script : Script) (s : EngState) (calls : List EngCall)
    (tr1 tr2 : List (EngOut × VisualState))
    (h1 : EngRun script s calls tr1) (h2 : EngRun script s calls tr2) : tr1 = tr2 := by
  induction h1 generalizing tr2 with
  | nil s => cases h2; rfl
  | cons s s2 c o calls tr hstep hrun ih =>
    cases h2 with
    | cons _ s2b _ ob _ trb hstepb hrunb =>
      obtain ⟨hs, ho⟩ := engStep_deterministic script s s2 s2b c o ob hstep hstepb
      subst hs
      subst ho
      rw [ih trb hrunb]

/-- C7 witness: a concrete one-step run of the one-dialogue script,
performed twice, yields the same trace. -/
theorem eng_run_deterministic_witness :
    [((Except.ok (Event.dialogue { speaker := "Ava", text := "Hola" },
        ([] : List AudioCmd)) : EngOut),
      ({ background := none, music := none, characters := [] } : VisualState))] =
    [((Except.ok (Event.dialogue { speaker := "Ava", text := "Hola" },
        ([] : List AudioCmd)) : EngOut),
      ({ background := none, music := none, characters := [] } : VisualState))] :=
  by
  have hstep : EngStep demoScript (initState demoScript) .step
      { mode := .exhausted, flags := [], vars := [],
        visual := { background := none, music := none, characters := [] },
        audioQueue := [], choiceHistory := [], readSet := [0] }
      (.ok (.dialogue { speaker := "Ava", text := "Hola" }, [])) :=
    EngStep.step_dialogue _ 0 _ rfl rfl
  have hrun := EngRun.cons _ _ _ _ _ _ hstep (EngRun.nil _)
  exact eng_run_deterministic demoScript (initState demoScript) [.step] _ _ hrun hrun

end VN
